import Mathlib

/-!
Verification of the walc-model repository: a lexer, recursive-descent parser,
bytecode compiler, tree-walking interpreter and two bytecode virtual machines
for a small arithmetic expression language.

The Lean definitions below are a shallow embedding of the Rust sources:
  * `lex`, `lexNext`, `lexNumber`, ...  from src/frontend/lexer.rs
  * `parse`, `parseAssign`, `parseAdd`, ...  from src/frontend/parser.rs
  * `generate`  from src/bytecode/bytecode_generator.rs
  * `executeB` / `interpB`  from src/bytecode/bytecode_interpreter.rs
  * `executeA` / `interpA`  from src/vm/runtime_state.rs and src/vm/interpreter.rs
  * `twInterpret`  from src/ast/treewalk_interpreter.rs
  * `interpret`  from src/lib.rs

Modelling conventions, used consistently below:
  * Rust `f64` is modelled by `FNum`, an exact (unnormalised) fraction of
    integers.  Every numeric computation exercised by the claims (small
    integer sums, products, integer powers, comparison with zero) is exact
    in IEEE-754 double precision, so the exact model agrees with `f64`
    byte-for-byte on those runs.  Transcendental cases of `powf` and the
    rounding of `f64::from_str` are outside the claims and are documented
    at their definitions.
  * A byte of a bytecode stream is a `CByte`: either a literal byte `.b n`
    or `.fenc v k`, the `k`-th byte of the little-endian IEEE-754 encoding
    of the double `v`.  `f64::to_le_bytes` / `f64::from_le_bytes` form a
    bijection, so carrying the encoded value symbolically is faithful; a
    code path that would inspect the concrete bit pattern of an encoded
    float (never reached in any claim) is modelled as a `.crash`.
  * Rust panics (failed `assert!`, out-of-bounds indexing/slicing, `unwrap`
    on `Err`/`None`, `panic!`) are modelled by a `.crash msg` outcome, kept
    separate from the `Result::Err` channel.
  * Loops are modelled by structurally recursive functions with an explicit
    fuel argument; top-level entry points supply fuel that is large enough
    for the loop to run to completion (each iteration consumes input), and
    fuel exhaustion is a distinguishable `.crash` outcome.
-/

set_option maxRecDepth 16384

namespace Walc

/-- Exact stand-in for Rust `f64`: the fraction `n / d`, not normalised.
All arithmetic exercised by the claims is exact in double precision, where
it coincides with this model. -/
structure FNum where
  n : Int
  d : Int
deriving DecidableEq

/-- Addition of fractions, modelling `f64` addition on exactly-representable
values. -/
def FNum.add (a b : FNum) : FNum := ⟨a.n * b.d + b.n * a.d, a.d * b.d⟩

/-- Subtraction of fractions, modelling `f64` subtraction. -/
def FNum.sub (a b : FNum) : FNum := ⟨a.n * b.d - b.n * a.d, a.d * b.d⟩

/-- Multiplication of fractions, modelling `f64` multiplication. -/
def FNum.mul (a b : FNum) : FNum := ⟨a.n * b.n, a.d * b.d⟩

/-- Division of fractions, modelling `f64` division (only ever invoked on a
nonzero divisor: both VMs test the divisor against `0.0` first). -/
def FNum.div (a b : FNum) : FNum := ⟨a.n * b.d, a.d * b.n⟩

/-- Iterated product, used to model `f64::powf` on natural exponents. -/
def FNum.powN (a : FNum) : Nat → FNum
  | 0 => ⟨1, 1⟩
  | k+1 => a.mul (a.powN k)

/-- Model of `f64::powf`.  On an integral exponent (the only case any claim
exercises) this is exact integer exponentiation, which agrees with `powf`
exactly whenever the result is representable (e.g. `2.0.powf(9.0) = 512.0`).
`powf` on a non-integral exponent is a transcendental libm routine with no
exact specification; that case is unreachable in every claim and is mapped
to a fixed junk value. -/
def FNum.powf (a e : FNum) : FNum :=
  if e.d ≠ 0 ∧ e.n % e.d = 0 then
    let k : Int := e.n / e.d
    if 0 ≤ k then a.powN k.toNat
    else
      let p := a.powN (-k).toNat
      ⟨p.d, p.n⟩
  else ⟨0, 1⟩

/-- The test `right == 0.0` performed by both VMs before dividing: a double
compares equal to `0.0` exactly when its numerator is zero (both IEEE zeros
compare equal to `0.0`). -/
def FNum.isZeroF (a : FNum) : Bool := a.n = 0

/-- Digit characters of a natural number, most significant first; explicit
fuel keeps the recursion structural. -/
def natDigitsAux : Nat → Nat → List Char
  | 0, _ => []
  | fuel+1, n =>
    if n = 0 then [] else natDigitsAux fuel (n / 10) ++ [Char.ofNat (48 + n % 10)]

/-- Decimal rendering of a natural number, as Rust's `{}` formatting does. -/
def natToStr (n : Nat) : String :=
  if n = 0 then "0" else ⟨natDigitsAux (n + 1) n⟩

/-- Decimal rendering of an integer, as Rust's `{}` formatting does. -/
def intToStr (i : Int) : String :=
  if i < 0 then "-" ++ natToStr i.natAbs else natToStr i.natAbs

/-- Model of Rust's `Display` formatting of an `f64` (`format!("{}", v)`),
defined for the values with an integral fraction that the claims produce;
`512.0` prints as `512`.  Shortest-roundtrip printing of a non-integral
double is not modelled (no claim renders one). -/
def renderFNum (v : FNum) : String :=
  if v.d ≠ 0 ∧ v.n % v.d = 0 then intToStr (v.n / v.d)
  else "non-integral float rendering not modelled"

/-- A single quote character, written via its code point. -/
def squote : String := (Char.ofNat 39).toString

/-- Wrap a character in single quotes, as Rust's `'{}'` format strings do. -/
def quoteC (c : Char) : String := squote ++ c.toString ++ squote

/-- Does `pat` occur at the head of `l`? -/
def frontMatches : List Char → List Char → Bool
  | [], _ => true
  | _ :: _, [] => false
  | p :: ps, c :: cs => p = c && frontMatches ps cs

/-- Does `pat` occur anywhere inside `l`? -/
def hasSubList (l pat : List Char) : Bool :=
  match l with
  | [] => frontMatches pat []
  | _ :: rest => frontMatches pat l || hasSubList rest pat

/-- Substring test on strings (used to state "the error text contains ..."). -/
def hasSubStr (s pat : String) : Bool := hasSubList s.data pat.data

/-- UTF-8 bytes of one character (RFC 3629), modelling `str::as_bytes`. -/
def charUtf8 (c : Char) : List Nat :=
  let n := c.toNat
  if n < 128 then [n]
  else if n < 2048 then [192 + n / 64, 128 + n % 64]
  else if n < 65536 then [224 + n / 4096, 128 + (n / 64) % 64, 128 + n % 64]
  else [240 + n / 262144, 128 + (n / 4096) % 64, 128 + (n / 64) % 64, 128 + n % 64]

/-- UTF-8 encoding of a string, modelling `str::as_bytes` / `str::len`. -/
def utf8Encode (s : String) : List Nat := (s.data.map charUtf8).flatten

/-- Is `b` a UTF-8 continuation byte? -/
def isCont (b : Nat) : Bool := 128 ≤ b && b ≤ 191

/-- Strict UTF-8 decoding (RFC 3629, as `std::str::from_utf8` validates),
with explicit fuel; returns `none` exactly on ill-formed input. -/
def utf8DecodeAux : Nat → List Nat → Option (List Char)
  | 0, [] => some []
  | 0, _ :: _ => none
  | _+1, [] => some []
  | fuel+1, b :: rest =>
    if b < 128 then
      (utf8DecodeAux fuel rest).map (fun cs => Char.ofNat b :: cs)
    else if 194 ≤ b && b ≤ 223 then
      match rest with
      | c1 :: r =>
        if isCont c1 then
          (utf8DecodeAux fuel r).map
            (fun cs => Char.ofNat ((b - 192) * 64 + (c1 - 128)) :: cs)
        else none
      | _ => none
    else if 224 ≤ b && b ≤ 239 then
      match rest with
      | c1 :: c2 :: r =>
        let lo1 : Nat := if b = 224 then 160 else 128
        let hi1 : Nat := if b = 237 then 159 else 191
        if (lo1 ≤ c1 && c1 ≤ hi1) && isCont c2 then
          (utf8DecodeAux fuel r).map
            (fun cs => Char.ofNat ((b - 224) * 4096 + (c1 - 128) * 64 + (c2 - 128)) :: cs)
        else none
      | _ => none
    else if 240 ≤ b && b ≤ 244 then
      match rest with
      | c1 :: c2 :: c3 :: r =>
        let lo1 : Nat := if b = 240 then 144 else 128
        let hi1 : Nat := if b = 244 then 143 else 191
        if (lo1 ≤ c1 && c1 ≤ hi1) && (isCont c2 && isCont c3) then
          (utf8DecodeAux fuel r).map
            (fun cs =>
              Char.ofNat ((b - 240) * 262144 + (c1 - 128) * 4096 + (c2 - 128) * 64 + (c3 - 128)) :: cs)
        else none
      | _ => none
    else none

/-- Model of `std::str::from_utf8`: the decoded string, or `none` on invalid
input. -/
def utf8Decode (bytes : List Nat) : Option String :=
  (utf8DecodeAux (bytes.length + 1) bytes).map (fun cs => ⟨cs⟩)

/-- One byte of a bytecode stream.  `.b n` is a literal byte; `.fenc v k` is
the `k`-th byte of the little-endian IEEE-754 encoding of the double `v`
(carried symbolically, see the header comment). -/
inductive CByte
  | b (v : Nat)
  | fenc (v : FNum) (k : Fin 8)
deriving DecidableEq

/-- Is this stream byte part of a float encoding? -/
def CByte.isEnc : CByte → Bool
  | .b _ => false
  | .fenc _ _ => true

/-- The literal value of a stream byte, when it has one. -/
def CByte.lit : CByte → Option Nat
  | .b v => some v
  | .fenc _ _ => none

/-- The eight bytes `f64::to_le_bytes` produces for the double `v`. -/
def encF (v : FNum) : List CByte :=
  [.fenc v 0, .fenc v 1, .fenc v 2, .fenc v 3, .fenc v 4, .fenc v 5, .fenc v 6, .fenc v 7]

/-- Model of `f64::from_le_bytes` applied to an 8-byte slice of the stream:
a slice that is exactly the encoding of some double decodes to that double
(`from_le_bytes` inverts `to_le_bytes`); any other slice has no symbolic
decoding (`none`), which callers turn into a model `.crash` — no claim ever
reads misaligned float bytes. -/
def decodeOctet (l : List CByte) : Option FNum :=
  match l with
  | CByte.fenc v _ :: _ => if l = encF v then some v else none
  | _ => none

/-- The opcodes of src/bytecode/opcode.rs, plus `ASSIGN`, which
src/bytecode/bytecode_generator.rs imports from that enum even though the
enum in src/ does not declare it (the sources are snapshots of different
revisions). -/
inductive Opcode
  | PUSH
  | ADD
  | SUBTRACT
  | MULTIPLY
  | DIVIDE
  | EXP
  | IDENTIFIER
  | VARWRITE
  | ASSIGN
deriving DecidableEq

/-- `Opcode::byte_from_opcode` of src/bytecode/opcode.rs.  The `ASSIGN` case
is modelled from the spec: the byte layout table (spec section 6) assigns the
identifier-operand opcode the byte 6, and the generator's `ASSIGN` plays that
role (its `TODO: change assignment to writevar` comment marks the rename);
no theorem below depends on the byte chosen for it. -/
def byteFromOpcode : Opcode → Nat
  | .PUSH => 0
  | .ADD => 1
  | .SUBTRACT => 2
  | .MULTIPLY => 3
  | .DIVIDE => 4
  | .EXP => 5
  | .IDENTIFIER => 6
  | .VARWRITE => 7
  | .ASSIGN => 6

/-- `Opcode::opcode_from_byte` of src/bytecode/opcode.rs; `none` models the
`panic!("Unknown opcode {}")` default arm. -/
def opcodeFromByte (b : Nat) : Option Opcode :=
  if b = 0 then some .PUSH
  else if b = 1 then some .ADD
  else if b = 2 then some .SUBTRACT
  else if b = 3 then some .MULTIPLY
  else if b = 4 then some .DIVIDE
  else if b = 5 then some .EXP
  else if b = 6 then some .IDENTIFIER
  else if b = 7 then some .VARWRITE
  else none

/-- `IMM_LEN` of src/bytecode/opcode.rs. -/
def IMM_LEN : Nat := 8

/-! Lexer — src/frontend/lexer.rs -/

/-- `LexemeType` of src/frontend/lexer.rs. -/
inductive LexemeType
  | Identifier
  | Numeric
  | OpenParen
  | CloseParen
  | Plus
  | Minus
  | Star
  | DoubleStar
  | Slash
  | Equals
  | EOF
deriving DecidableEq

/-- `Lexeme` of src/frontend/lexer.rs. -/
structure Lexeme where
  lexemeType : LexemeType
  line : Nat
  text : String
deriving DecidableEq

/-- Placeholder character used as the `getD` default; every guarded read is
in bounds, and the one unguarded read in the lexer is modelled with `get?`. -/
def dChar : Char := Char.ofNat 0

/-- The `Lexer` struct fields that the character loop uses (the lexeme and
error accumulators are threaded separately). -/
structure LexSt where
  data : List Char
  index : Nat
  line : Nat
deriving DecidableEq

/-- `Lexer::in_bounds`. -/
def LexSt.inB (st : LexSt) : Bool := st.index < st.data.length

/-- `Lexer::current` at a call site that already checked `in_bounds`. -/
def LexSt.cur (st : LexSt) : Char := st.data.getD st.index dChar

/-- `Lexer::skip` / the cursor step of `Lexer::next`. -/
def LexSt.adv (st : LexSt) : LexSt := { st with index := st.index + 1 }

/-- Rust `char::is_whitespace`, modelled on the ASCII whitespace the claims
exercise (space, tab, newline, carriage return). -/
def isWsC (c : Char) : Bool := c = ' ' || c = '\t' || c = '\n' || c = '\r'

/-- Rust `char::is_ascii_digit` (exact). -/
def isDigitC (c : Char) : Bool := c.isDigit

/-- Rust `char::is_alphabetic`, modelled on the ASCII letters the claims
exercise. -/
def isAlphaC (c : Char) : Bool := c.isAlpha

/-- Rust `char::is_alphanumeric`, modelled on the ASCII range. -/
def isAlnumC (c : Char) : Bool := c.isAlphanum

/-- The whitespace-skipping loop at the head of `Lexer::lex_next`, including
its line counting. -/
def skipWs : Nat → LexSt → LexSt
  | 0, st => st
  | fuel+1, st =>
    if st.inB && isWsC st.cur then
      skipWs fuel
        { data := st.data, index := st.index + 1,
          line := if st.cur = '\n' then st.line + 1 else st.line }
    else st

/-- The digit-collecting loops of `Lexer::lex_number`. -/
def collectDigits : Nat → LexSt → String × LexSt
  | 0, st => ("", st)
  | fuel+1, st =>
    if st.inB && isDigitC st.cur then
      let (s, st') := collectDigits fuel st.adv
      (String.singleton st.cur ++ s, st')
    else ("", st)

/-- The character-collecting loop of `Lexer::lex_identifier`. -/
def collectIdentChars : Nat → LexSt → String × LexSt
  | 0, st => ("", st)
  | fuel+1, st =>
    if st.inB && (isAlnumC st.cur || st.cur = '_') then
      let (s, st') := collectIdentChars fuel st.adv
      (String.singleton st.cur ++ s, st')
    else ("", st)

/-- Result of `Lexer::lex_next`; `.crash` models a Rust panic. -/
inductive LexRes
  | ok (lx : Lexeme)
  | err (m : String)
  | crash (m : String)
deriving DecidableEq

/-- `Lexer::lex_number`: digits, an optional decimal point with mandatory
following digits; `start` is the already-consumed first character (`-` or a
digit). -/
def lexNumber (fuel : Nat) (start : Char) (st : LexSt) : LexRes × LexSt :=
  let (ds, st1) := collectDigits fuel st
  let chars := String.singleton start ++ ds
  if !st1.inB || st1.cur ≠ '.' then
    (.ok ⟨.Numeric, st1.line, chars⟩, st1)
  else
    let chars2 := chars ++ String.singleton st1.cur
    let st2 := st1.adv
    if !st2.inB || !isDigitC st2.cur then
      (.err ("Unterminated float.\n"), st2)
    else
      let (ds2, st3) := collectDigits fuel st2
      (.ok ⟨.Numeric, st3.line, chars2 ++ ds2⟩, st3)

/-- `Lexer::lex_identifier`: alphanumerics and underscores after the initial
letter; a name longer than 255 bytes is a per-token error. -/
def lexIdentifier (fuel : Nat) (start : Char) (st : LexSt) : LexRes × LexSt :=
  let (rest, st1) := collectIdentChars fuel st
  let chars := String.singleton start ++ rest
  if 255 < (utf8Encode chars).length then (.err ("Name out of bounds!"), st1)
  else (.ok ⟨.Identifier, st1.line, chars⟩, st1)

/-- `Lexer::lex_next`.  Note the unknown-character arm: the offending
character was already consumed by `next()`, so the error formats
`self.current()`, the character after it — and `current()`'s bounds
assertion fails (a panic, modelled as `.crash`) when the offending character
was the last one of the input. -/
def lexNext (fuel : Nat) (st0 : LexSt) : LexRes × LexSt :=
  let st := skipWs fuel st0
  if !st.inB then (.ok ⟨.EOF, st.line, "end of file"⟩, st)
  else
    let start := st.cur
    let st1 := st.adv
    if start = '(' then (.ok ⟨.OpenParen, st1.line, "("⟩, st1)
    else if start = ')' then (.ok ⟨.CloseParen, st1.line, ")"⟩, st1)
    else if start = '*' then
      if st1.inB && st1.cur = '*' then (.ok ⟨.DoubleStar, st1.adv.line, "**"⟩, st1.adv)
      else (.ok ⟨.Star, st1.line, "*"⟩, st1)
    else if start = '/' then (.ok ⟨.Slash, st1.line, "/"⟩, st1)
    else if start = '+' then (.ok ⟨.Plus, st1.line, "+"⟩, st1)
    else if start = '-' then
      if st1.inB && isDigitC st1.cur then lexNumber fuel ('-') st1
      else (.ok ⟨.Minus, st1.line, "-"⟩, st1)
    else if start = '=' then (.ok ⟨.Equals, st1.line, "="⟩, st1)
    else if isDigitC start then lexNumber fuel start st1
    else if isAlphaC start then lexIdentifier fuel start st1
    else
      match st1.data.get? st1.index with
      | some c => (.err ("Unexpected character: " ++ quoteC c ++ ".\n"), st1)
      | none => (.crash ("assertion failure: lexer current() out of bounds"), st1)

/-- Result of `lex`; `.crash` models a Rust panic escaping the loop. -/
inductive LexOut
  | ok (lexemes : List Lexeme)
  | err (m : String)
  | crash (m : String)
deriving DecidableEq

/-- The `Lexer::lex` loop together with the error check of the `lex`
function: lexemes accumulate until `EOF`; error messages concatenate; a
non-empty error log replaces the lexeme sequence. -/
def lexAll : Nat → LexSt → List Lexeme → String → LexOut
  | 0, _, _, _ => .crash ("model: lexer fuel exhausted")
  | fuel+1, st, acc, errs =>
    match lexNext (st.data.length + 1) st with
    | (.ok lx, st') =>
      if lx.lexemeType = .EOF then
        if errs = "" then .ok (acc ++ [lx]) else .err errs
      else lexAll fuel st' (acc ++ [lx]) errs
    | (.err m, st') => lexAll fuel st' acc (errs ++ m)
    | (.crash m, _) => .crash m

/-- `lex` of src/frontend/lexer.rs. -/
def lex (source : String) : LexOut :=
  lexAll (source.data.length + 2) ⟨source.data, 0, 1⟩ [] ""

/-! Syntax tree — src/ast/ast.rs -/

/-- `ASTNode` of src/ast/ast.rs (the revision without `VarRead`, which is
the one declared in src/lib.rs's module tree). -/
inductive AST
  | Number (value : FNum)
  | Assignment (name : String) (value : AST)
  | Exponentiate (left : AST) (right : AST)
  | Add (left : AST) (right : AST)
  | Subtract (left : AST) (right : AST)
  | Multiply (left : AST) (right : AST)
  | Divide (left : AST) (right : AST)
deriving DecidableEq

/-! Parser — src/frontend/parser.rs -/

/-- Result of one parsing function; `.crash` models a Rust panic (the
`current()` bounds assertion or the `unwrap` in `parse_number`). -/
inductive PRes
  | ok (ast : AST)
  | err (m : String)
  | crash (m : String)
deriving DecidableEq

/-- The `Parser` struct. -/
structure ParserSt where
  index : Nat
  lexemes : List Lexeme
deriving DecidableEq

/-- `Parser::in_bounds`. -/
def ParserSt.inB (st : ParserSt) : Bool := st.index < st.lexemes.length

/-- `Parser::advance`. -/
def ParserSt.adv (st : ParserSt) : ParserSt := { st with index := st.index + 1 }

/-- `Parser::current`, whose bounds assertion panics out of bounds: the
continuation runs only on an in-bounds lexeme. -/
def withCur (st : ParserSt) (k : Lexeme → PRes × ParserSt) : PRes × ParserSt :=
  match st.lexemes.get? st.index with
  | some lx => k lx
  | none => (.crash ("assertion failure: parser current() out of bounds"), st)

/-- Rust `f64::from_str` on the text of a `Numeric` lexeme: an optional
leading minus, digits, and an optional fraction, read exactly.  (`from_str`
rounds to the nearest double; every literal any claim exercises is exactly
representable, where the two agree.) -/
def numFromStr (s : String) : Option FNum :=
  let core : List Char → Option FNum := fun cs =>
    let ds := cs.takeWhile isDigitC
    let rest := cs.drop ds.length
    if ds = [] then none
    else
      let ip : Nat := ds.foldl (fun a c => a * 10 + (c.toNat - 48)) 0
      match rest with
      | [] => some ⟨ip, 1⟩
      | c :: fs =>
        if c = '.' ∧ fs ≠ [] ∧ fs.all isDigitC then
          let fp : Nat := fs.foldl (fun a c => a * 10 + (c.toNat - 48)) 0
          some ⟨ip * 10 ^ fs.length + fp, 10 ^ fs.length⟩
        else none
  match s.data with
  | c :: cs =>
    if c = '-' then (core cs).map (fun v => ⟨-v.n, v.d⟩) else core s.data
  | [] => none

/-- `Parser::parse_number`: a `Numeric` lexeme becomes a literal node and is
consumed; anything else produces an `Expected number` error without
consuming input. -/
def parseNumber (st : ParserSt) : PRes × ParserSt :=
  withCur st fun lx =>
    if lx.lexemeType = .Numeric then
      match numFromStr lx.text with
      | some v => (.ok (AST.Number v), st.adv)
      | none => (.crash ("unwrap failure: from_str on numeric lexeme"), st)
    else
      (.err ("Expected number on line " ++ natToStr lx.line ++ ", got " ++ lx.text ++ " instead.\n"), st)

/-- The error text carried by an errored subtree, empty otherwise (the
`err_message` priming that each parsing function performs). -/
def primeErr : PRes → String
  | .err m => m
  | _ => ""

mutual

/-- `Parser::parse_assign`: an `Identifier` lexeme must be followed by `=`
and an additive expression; otherwise fall through to `parse_add`. -/
def parseAssign : Nat → ParserSt → PRes × ParserSt
  | 0, st => (.crash ("model: parser fuel exhausted"), st)
  | fuel+1, st =>
    if st.inB && (st.lexemes.getD st.index ⟨.EOF, 0, ""⟩).lexemeType = .Identifier then
      let name := (st.lexemes.getD st.index ⟨.EOF, 0, ""⟩).text
      let st1 := st.adv
      withCur st1 fun lx2 =>
        if lx2.lexemeType ≠ .Equals then
          (.err ("Expected equals on line " ++ natToStr lx2.line ++ ".\n"), st1)
        else
          let st2 := st1.adv
          let (v, st3) := parseAdd fuel st2
          match v with
          | .ok ast => (.ok (AST.Assignment name ast), st3)
          | other => (other, st3)
    else parseAdd fuel st

/-- `Parser::parse_add` up to its repetition loop. -/
def parseAdd : Nat → ParserSt → PRes × ParserSt
  | 0, st => (.crash ("model: parser fuel exhausted"), st)
  | fuel+1, st =>
    let (left, st1) := parseMultiply fuel st
    parseAddLoop fuel left (primeErr left) st1

/-- The `while Plus or Minus` loop of `parse_add`: even after an error it
keeps scanning operands at this precedence level, concatenating every
message; a node is built only when both sides parsed. -/
def parseAddLoop : Nat → PRes → String → ParserSt → PRes × ParserSt
  | 0, _, _, st => (.crash ("model: parser fuel exhausted"), st)
  | fuel+1, left, em, st =>
    match st.lexemes.get? st.index with
    | some lx =>
      if lx.lexemeType = .Plus ∨ lx.lexemeType = .Minus then
        let (right, st1) := parseMultiply fuel st.adv
        let em' := em ++ primeErr right
        match left, right with
        | .ok l, .ok r =>
          let node := if lx.lexemeType = .Plus then AST.Add l r else AST.Subtract l r
          parseAddLoop fuel (.ok node) em' st1
        | .crash m, _ => (.crash m, st1)
        | _, .crash m => (.crash m, st1)
        | _, _ => parseAddLoop fuel left em' st1
      else (if em ≠ "" then .err em else left, st)
    | none => (if em ≠ "" then .err em else left, st)

/-- `Parser::parse_multiply` up to its repetition loop. -/
def parseMultiply : Nat → ParserSt → PRes × ParserSt
  | 0, st => (.crash ("model: parser fuel exhausted"), st)
  | fuel+1, st =>
    let (left, st1) := parseExpo fuel st
    parseMulLoop fuel left (primeErr left) st1

/-- The `while Star or Slash` loop of `parse_multiply`, with the same
error-accumulation discipline as `parse_add`. -/
def parseMulLoop : Nat → PRes → String → ParserSt → PRes × ParserSt
  | 0, _, _, st => (.crash ("model: parser fuel exhausted"), st)
  | fuel+1, left, em, st =>
    match st.lexemes.get? st.index with
    | some lx =>
      if lx.lexemeType = .Star ∨ lx.lexemeType = .Slash then
        let (right, st1) := parseExpo fuel st.adv
        let em' := em ++ primeErr right
        match left, right with
        | .ok l, .ok r =>
          let node := if lx.lexemeType = .Star then AST.Multiply l r else AST.Divide l r
          parseMulLoop fuel (.ok node) em' st1
        | .crash m, _ => (.crash m, st1)
        | _, .crash m => (.crash m, st1)
        | _, _ => parseMulLoop fuel left em' st1
      else (if em ≠ "" then .err em else left, st)
    | none => (if em ≠ "" then .err em else left, st)

/-- `Parser::parse_exponentiation`: an atom, then an optional right-recursive
`**` tail (right associativity). -/
def parseExpo : Nat → ParserSt → PRes × ParserSt
  | 0, st => (.crash ("model: parser fuel exhausted"), st)
  | fuel+1, st =>
    let (root, st1) := parseAtom fuel st
    let em := primeErr root
    match st1.lexemes.get? st1.index with
    | some lx =>
      if lx.lexemeType = .DoubleStar then
        let (right, st2) := parseExpo fuel st1.adv
        let em' := em ++ primeErr right
        match root, right with
        | .ok l, .ok r => (.ok (AST.Exponentiate l r), st2)
        | .crash m, _ => (.crash m, st2)
        | _, .crash m => (.crash m, st2)
        | _, _ => (.err em', st2)
      else (root, st1)
    | none => (root, st1)

/-- `Parser::parse_atom`: a parenthesised additive expression or a number.
A missing `)` discards the inner result (and any inner error text) in favour
of the `Expected ')'` message, without consuming the offending lexeme. -/
def parseAtom : Nat → ParserSt → PRes × ParserSt
  | 0, st => (.crash ("model: parser fuel exhausted"), st)
  | fuel+1, st =>
    withCur st fun lx =>
      if lx.lexemeType = .OpenParen then
        let (value, st1) := parseAdd fuel st.adv
        match value with
        | .crash m => (.crash m, st1)
        | _ =>
          withCur st1 fun lx2 =>
            if lx2.lexemeType ≠ .CloseParen then
              (.err ("Expected " ++ quoteC (')') ++ " on line " ++ natToStr lx2.line ++
                ", got " ++ lx2.text ++ " instead.\n"), st1)
            else (value, st1.adv)
      else parseNumber st

end

/-- Debug formatting of a lexeme, as Rust's derived `Debug` prints it inside
the `Expected EOF` message (no claim inspects this text). -/
def lexemeTypeName : LexemeType → String
  | .Identifier => "Identifier"
  | .Numeric => "Numeric"
  | .OpenParen => "OpenParen"
  | .CloseParen => "CloseParen"
  | .Plus => "Plus"
  | .Minus => "Minus"
  | .Star => "Star"
  | .DoubleStar => "DoubleStar"
  | .Slash => "Slash"
  | .Equals => "Equals"
  | .EOF => "EOF"

/-- Rust `{:?}` output for a `Lexeme`. -/
def lexemeRepr (lx : Lexeme) : String :=
  "Lexeme \x7b lexeme_type: " ++ lexemeTypeName lx.lexemeType ++
    ", line: " ++ natToStr lx.line ++ ", text: \"" ++ lx.text ++ "\" \x7d"

/-- `Parser::parse`: run `parse_assign`, then require the cursor to sit
exactly on the final `EOF` lexeme. -/
def parseTop (fuel : Nat) (st : ParserSt) : PRes :=
  let (ast, st1) := parseAssign fuel st
  match ast with
  | .ok a =>
    if st1.index ≠ st1.lexemes.length - 1 then
      match st1.lexemes.get? st1.index with
      | some lx => .err ("Expected EOF, got " ++ lexemeRepr lx ++ ".\n ")
      | none => .crash ("index out of bounds: lexeme vector")
    else .ok a
  | other => other

/-- Result of the free function `parse`: `Option<Result<...>>` in Rust, plus
the panic channel. -/
inductive POut
  | noInput
  | ok (ast : AST)
  | err (m : String)
  | crash (m : String)
deriving DecidableEq

/-- `parse` of src/frontend/parser.rs: `noInput` when the first lexeme is
already `EOF` (Rust `None`); the `assert!(lexemes.len() > 0)` panics on an
empty vector. -/
def parse (lexemes : List Lexeme) : POut :=
  match lexemes with
  | [] => .crash ("assertion failure: empty lexeme vector")
  | lx :: _ =>
    if lx.lexemeType = .EOF then .noInput
    else
      match parseTop (8 * (lexemes.length + 1)) ⟨0, lexemes⟩ with
      | .ok a => .ok a
      | .err m => .err m
      | .crash m => .crash m

/-! Bytecode generator — src/bytecode/bytecode_generator.rs -/

/-- `generate` of src/bytecode/bytecode_generator.rs: one postorder
traversal (children before the node, an assignment's value before the
assignment); a literal emits `PUSH` plus its eight encoding bytes; an
assignment emits the `ASSIGN` opcode, a one-byte name length (`as u8`
truncates, hence the `% 256`), and the UTF-8 name bytes — and nothing else:
no `VARWRITE` is emitted anywhere.  (The generator's `VarRead` arm matches
an `ASTNode` variant absent from src/ast/ast.rs and is not represented.) -/
def generate : AST → List CByte
  | .Number v => CByte.b (byteFromOpcode .PUSH) :: encF v
  | .Assignment name value =>
    generate value ++
      (CByte.b (byteFromOpcode .ASSIGN) ::
        CByte.b ((utf8Encode name).length % 256) :: (utf8Encode name).map CByte.b)
  | .Add l r => generate l ++ generate r ++ [CByte.b (byteFromOpcode .ADD)]
  | .Subtract l r => generate l ++ generate r ++ [CByte.b (byteFromOpcode .SUBTRACT)]
  | .Multiply l r => generate l ++ generate r ++ [CByte.b (byteFromOpcode .MULTIPLY)]
  | .Divide l r => generate l ++ generate r ++ [CByte.b (byteFromOpcode .DIVIDE)]
  | .Exponentiate l r => generate l ++ generate r ++ [CByte.b (byteFromOpcode .EXP)]

/-! Bytecode executor with an `f64` stack — src/bytecode/bytecode_interpreter.rs
(the executor that src/lib.rs wires into `interpret`). -/

/-- `InterpreterState` of src/bytecode/bytecode_interpreter.rs, with the
`f64` operand stack threaded alongside. -/
structure StB where
  code : List CByte
  index : Nat
  stack : List FNum
  errors : String
deriving DecidableEq

/-- Result of the `interpret_scope` loop of bytecode_interpreter.rs: the
boolean it returns plus the final stack and error log; `.crash` models a
panic (unknown opcode, out-of-bounds slice, or a read this embedding cannot
follow bit-by-bit). -/
inductive OutB
  | ret (ok : Bool) (stack : List FNum) (errors : String)
  | crash (m : String)
deriving DecidableEq

/-- `InterpreterState::interpret_scope` of
src/bytecode/bytecode_interpreter.rs.  Faithful quirks: the `IDENTIFIER` arm
reads the length and validates the name bytes but pushes nothing and never
advances the cursor past the name (so the name bytes are decoded as opcodes
next); the `VARWRITE` arm is an empty `TODO`; the insufficient-operand
message goes into `iteration_errors` and its `continue` skips the
copy into `self.errors`, so it is silently dropped; the division-by-zero
message does reach `self.errors`. -/
def interpB : Nat → StB → OutB
  | 0, _ => .crash ("model: executor fuel exhausted")
  | fuel+1, st =>
    if st.index < st.code.length then
      match st.code.getD st.index (.b 0) with
      | .fenc _ _ => .crash ("model: float-encoding byte decoded as opcode")
      | .b op =>
        let st1 : StB := { st with index := st.index + 1 }
        match opcodeFromByte op with
        | none => .crash ("Unknown opcode " ++ natToStr op)
        | some .ASSIGN => .crash ("unreachable: opcode_from_byte never yields ASSIGN")
        | some .IDENTIFIER =>
          match st1.code.get? st1.index with
          | none => .crash ("index out of bounds: bytecode vector")
          | some (.fenc _ _) => .crash ("model: float-encoding byte read as length")
          | some (.b length) =>
            let st2 : StB := { st1 with index := st1.index + 1 }
            if st2.code.length < st2.index + length then
              .crash ("slice out of range: identifier bytes")
            else
              let cells := (st2.code.drop st2.index).take length
              if cells.any CByte.isEnc then
                .crash ("model: float-encoding byte inside identifier")
              else
                match utf8Decode (cells.filterMap CByte.lit) with
                | none =>
                  .ret false st2.stack (st2.errors ++
                    "Bytecode UTF conversion error. Expected: stream of valid UTF8 bytes for identifier.\n")
                | some _ => interpB fuel st2
        | some .VARWRITE => interpB fuel st1
        | some .PUSH =>
          if st1.code.length < st1.index + IMM_LEN then
            .crash ("slice out of range: push operand")
          else
            match decodeOctet ((st1.code.drop st1.index).take IMM_LEN) with
            | none => .crash ("model: misaligned float decode")
            | some v =>
              interpB fuel { st1 with index := st1.index + IMM_LEN, stack := st1.stack ++ [v] }
        | some opc =>
          if st1.stack.length < 2 then
            interpB fuel st1
          else
            let right := st1.stack.getLastD ⟨0, 1⟩
            let s1 := st1.stack.dropLast
            let left := s1.getLastD ⟨0, 1⟩
            let s2 := s1.dropLast
            match opc with
            | .ADD => interpB fuel { st1 with stack := s2 ++ [left.add right] }
            | .SUBTRACT => interpB fuel { st1 with stack := s2 ++ [left.sub right] }
            | .MULTIPLY => interpB fuel { st1 with stack := s2 ++ [left.mul right] }
            | .DIVIDE =>
              if right.isZeroF then
                interpB fuel { st1 with stack := s2, errors := st1.errors ++ "Cannot divide by zero.\n" }
              else interpB fuel { st1 with stack := s2 ++ [left.div right] }
            | .EXP => interpB fuel { st1 with stack := s2 ++ [left.powf right] }
            | _ => .crash ("unreachable: binary arm")
    else
      let errs := if st.stack = [] then st.errors ++ "No result.\n" else st.errors
      .ret (errs == "") st.stack errs

/-- Result of `execute`; `Result<f64, String>` plus the panic channel. -/
inductive ExecOutB
  | ok (v : FNum)
  | err (m : String)
  | crash (m : String)
deriving DecidableEq

/-- `execute` of src/bytecode/bytecode_interpreter.rs: run the loop, then
`Ok(stack.pop().unwrap())` on success, `Err(errors)` otherwise. -/
def executeB (code : List CByte) : ExecOutB :=
  match interpB (code.length + 2) ⟨code, 0, [], ""⟩ with
  | .crash m => .crash m
  | .ret true stack _ =>
    match stack.getLast? with
    | some v => .ok v
    | none => .crash ("unwrap failure: pop of empty stack")
  | .ret false _ errs => .err errs

/-! Tree-walking interpreter — src/ast/treewalk_interpreter.rs -/

/-- The binary-operator body of the treewalk visitor: with fewer than two
stack values it records `Insufficient operands` and leaves the stack alone;
otherwise it pops right then left and pushes the result, recording the
division-by-zero error (and pushing nothing) on a zero right operand. -/
def twBin (op : Opcode) (acc : List FNum × String) : List FNum × String :=
  let (stack, errors) := acc
  if stack.length < 2 then
    (stack, errors ++ "Insufficient operands for binary operation!\n")
  else
    let right := stack.getLastD ⟨0, 1⟩
    let s1 := stack.dropLast
    let left := s1.getLastD ⟨0, 1⟩
    let s2 := s1.dropLast
    match op with
    | .ADD => (s2 ++ [left.add right], errors)
    | .SUBTRACT => (s2 ++ [left.sub right], errors)
    | .MULTIPLY => (s2 ++ [left.mul right], errors)
    | .DIVIDE =>
      if right.isZeroF then (s2, errors ++ "Cannot divide by zero.\n")
      else (s2 ++ [left.div right], errors)
    | .EXP => (s2 ++ [left.powf right], errors)
    | _ => (s2, errors ++ "Internal error: invalid token.\n")

/-- The postorder visitor of `interpret` in src/ast/treewalk_interpreter.rs,
threading the `f64` stack and the error log.  `none` models the visitor
reaching an `Assignment` node: its match has no arm for that variant (the
file predates it), so no behaviour exists for assignment trees. -/
def twVisit : AST → List FNum × String → Option (List FNum × String)
  | .Number v, (stack, errors) => some (stack ++ [v], errors)
  | .Assignment _ _, _ => none
  | .Add l r, acc => ((twVisit l acc).bind (twVisit r ·)).map (twBin .ADD)
  | .Subtract l r, acc => ((twVisit l acc).bind (twVisit r ·)).map (twBin .SUBTRACT)
  | .Multiply l r, acc => ((twVisit l acc).bind (twVisit r ·)).map (twBin .MULTIPLY)
  | .Divide l r, acc => ((twVisit l acc).bind (twVisit r ·)).map (twBin .DIVIDE)
  | .Exponentiate l r, acc => ((twVisit l acc).bind (twVisit r ·)).map (twBin .EXP)

/-- `interpret` of src/ast/treewalk_interpreter.rs: walk the tree, add
`No result.` on an empty final stack, and return the top of the stack only
when the error log stayed empty. -/
def twInterpret (ast : AST) : ExecOutB :=
  match twVisit ast ([], "") with
  | none => .crash ("non-exhaustive match: ASTNode::Assignment")
  | some (stack, errors) =>
    let errors2 := if stack = [] then errors ++ "No result.\n" else errors
    if errors2 = "" then
      match stack.getLast? with
      | some v => .ok v
      | none => .crash ("unwrap failure: pop of empty stack")
    else .err errors2

/-! Public entry point — src/lib.rs -/

/-- Result of `interpret`: `Result<String, String>` plus the panic channel. -/
inductive InterpOut
  | ok (rendered : String)
  | err (m : String)
  | crash (m : String)
deriving DecidableEq

/-- `interpret` of src/lib.rs: lex, parse, generate, execute with the
bytecode_interpreter.rs executor, and render the resulting double with
`format!("{}", value)`; an empty parse yields `Err("")`. -/
def interpret (source : String) : InterpOut :=
  match lex source with
  | .crash m => .crash m
  | .err m => .err m
  | .ok lexemes =>
    match parse lexemes with
    | .crash m => .crash m
    | .noInput => .err ""
    | .err m => .err m
    | .ok ast =>
      match executeB (generate ast) with
      | .crash m => .crash m
      | .ok v => .ok (renderFNum v)
      | .err m => .err m

/-! Byte-stack virtual machine — src/vm/runtime_state.rs, executed through
src/vm/interpreter.rs -/

/-- The IEEE-754 double primitives the byte-stack VM applies to popped
8-byte groups (`+ - * /`, `powf`, and the `== 0.0` test).  They are Rust
`f64` intrinsics and libm routines, outside src/; every theorem below about
this VM holds for an arbitrary model of them, so the theorems quantify over
this structure. -/
structure ArithModel where
  fadd : List CByte → List CByte → List CByte
  fsub : List CByte → List CByte → List CByte
  fmul : List CByte → List CByte → List CByte
  fdiv : List CByte → List CByte → List CByte
  fpow : List CByte → List CByte → List CByte
  fzero : List CByte → Bool

/-- A degenerate arithmetic model, used only to instantiate universally
quantified theorems at runs that never reach an arithmetic operation. -/
def trivialAr : ArithModel :=
  ⟨fun _ _ => [], fun _ _ => [], fun _ _ => [], fun _ _ => [], fun _ _ => [], fun _ => true⟩

/-- `RuntimeState` of src/vm/runtime_state.rs: the byte-valued operand stack
(top at the end of the list), plus the scope binding of
src/vm/scope_binding.rs, which maps a name to the eight bytes of its bound
double. -/
structure StA where
  code : List CByte
  pc : Nat
  stack : List CByte
  errors : String
  binds : List (String × List CByte)
deriving DecidableEq

/-- The last `n` elements of a list (the top `n` stack bytes). -/
def lastN (n : Nat) (l : List CByte) : List CByte := l.drop (l.length - n)

/-- A list without its last `n` elements (the stack after popping `n`
bytes). -/
def dropLastN (n : Nat) (l : List CByte) : List CByte := l.take (l.length - n)

/-- `Binding::set_bind`: `HashMap::insert` semantics. -/
def setBind (name : String) (v : List CByte) : List (String × List CByte) → List (String × List CByte)
  | [] => [(name, v)]
  | (k, w) :: rest => if k = name then (k, v) :: rest else (k, w) :: setBind name v rest

/-- `RuntimeState::pop_float_from_stack`: with fewer than `IMM_LEN` stack
bytes it fails with the too-few-bytes message; otherwise it removes and
returns the top eight bytes (the `f64` round-trip through `from_le_bytes`
is the identity on them). -/
def popFloatA (stack : List CByte) : Sum String (List CByte × List CByte) :=
  if stack.length < IMM_LEN then
    .inl ("Expected 64-bit float on stack, found too few bytes.\n")
  else .inr (lastN IMM_LEN stack, dropLastN IMM_LEN stack)

/-- Result of `RuntimeState::pop_identifier_from_stack`, together with the
stack the pops left behind; `.crashP` models a read this embedding cannot
follow bit-by-bit (a float-encoding byte inside the identifier region —
reachable only from hand-crafted streams no claim uses). -/
inductive PopId
  | okP (name : String) (stack : List CByte)
  | errP (m : String) (stack : List CByte)
  | crashP (m : String)
deriving DecidableEq

/-- `RuntimeState::pop_identifier_from_stack`: pop the length byte (failing
on an empty stack), check that many bytes remain (the failure message
formats the stack length left after the pop), then only *read* the name
bytes — the source never truncates them off the stack.  The UTF-8 error
branch stringifies a `Utf8Error`; its exact rendering is not replayed
(`invalid utf-8 sequence`), and no claim reaches it. -/
def popIdentA (stack : List CByte) : PopId :=
  match stack.getLast? with
  | none => .errP ("Expected identifier on stack, found none.") stack
  | some cell =>
    let stack1 := stack.dropLast
    match cell with
    | .fenc _ _ => .crashP ("model: float-encoding byte read as identifier length")
    | .b length =>
      if stack1.length < length then
        .errP ("Expected identifier of length " ++ natToStr stack1.length ++
          " on top of stack, but found too few bytes on stack!\n") stack1
      else
        let cells := lastN length stack1
        if cells.any CByte.isEnc then
          .crashP ("model: float-encoding byte inside identifier")
        else
          match utf8Decode (cells.filterMap CByte.lit) with
          | some name => .okP name stack1
          | none => .errP ("invalid utf-8 sequence") stack1

/-- Result of `RuntimeState::interpret_scope`: its boolean plus the final
state, or a panic. -/
inductive OutA
  | ret (ok : Bool) (st : StA)
  | crash (m : String)
deriving DecidableEq

/-- `RuntimeState::interpret_scope` of src/vm/runtime_state.rs.  Faithful
quirks, each visible in the source: `convert_float_from_code` rejects a
`PUSH` whose operand *ends* the stream (`pc + IMM_LEN >= len`), and on that
error the loop continues decoding at the operand's first byte; the
`IDENTIFIER` arm never advances `pc` past the name bytes; a failed pop in
the `VARWRITE` arm returns `false` immediately (fatal); the successful
`VARWRITE` pushes the popped value bytes back; the binary arms guard on
`2 * IMM_LEN` stack bytes, making their individual pop failures
unreachable. -/
def interpA (ar : ArithModel) : Nat → StA → OutA
  | 0, _ => .crash ("model: vm fuel exhausted")
  | fuel+1, st =>
    if st.pc < st.code.length then
      match st.code.getD st.pc (.b 0) with
      | .fenc _ _ => .crash ("model: float-encoding byte decoded as opcode")
      | .b op =>
        let st1 : StA := { st with pc := st.pc + 1 }
        match opcodeFromByte op with
        | none => .crash ("Unknown opcode " ++ natToStr op)
        | some .ASSIGN => .crash ("unreachable: opcode_from_byte never yields ASSIGN")
        | some .IDENTIFIER =>
          match st1.code.get? st1.pc with
          | none => .crash ("index out of bounds: bytecode vector")
          | some (.fenc _ _) => .crash ("model: float-encoding byte read as length")
          | some (.b length) =>
            let st2 : StA := { st1 with pc := st1.pc + 1 }
            if st2.code.length < st2.pc + length then
              .crash ("slice out of range: identifier bytes")
            else
              let cells := (st2.code.drop st2.pc).take length
              if cells.any CByte.isEnc then
                .crash ("model: float-encoding byte inside identifier")
              else
                match utf8Decode (cells.filterMap CByte.lit) with
                | none =>
                  .ret false { st2 with errors := st2.errors ++
                    "Bytecode UTF conversion error. Expected: stream of valid UTF8 bytes for identifier.\n" }
                | some _ =>
                  if 255 < length then
                    .crash ("Identifier length exceeds the maximum allowed length.")
                  else
                    interpA ar fuel { st2 with stack := st2.stack ++ cells ++ [.b length] }
        | some .VARWRITE =>
          match popFloatA st1.stack with
          | .inl e => .ret false { st1 with errors := st1.errors ++ e }
          | .inr (valBytes, stack1) =>
            match popIdentA stack1 with
            | .crashP m => .crash m
            | .errP e stack2 =>
              .ret false { st1 with stack := stack2, errors := st1.errors ++ e }
            | .okP name stack2 =>
              interpA ar fuel
                { st1 with stack := stack2 ++ valBytes, binds := setBind name valBytes st1.binds }
        | some .PUSH =>
          if st1.code.length ≤ st1.pc + IMM_LEN then
            interpA ar fuel { st1 with errors := st1.errors ++
              "Not enough bytes to convert static code into float.\n" }
          else
            interpA ar fuel
              { st1 with pc := st1.pc + IMM_LEN, stack := st1.stack ++ (st1.code.drop st1.pc).take IMM_LEN }
        | some opc =>
          if st1.stack.length < 2 * IMM_LEN then
            interpA ar fuel { st1 with errors := st1.errors ++
              "Binary operation attempted with insufficient operands!\n" }
          else
            let right := lastN IMM_LEN st1.stack
            let s1 := dropLastN IMM_LEN st1.stack
            let left := lastN IMM_LEN s1
            let s2 := dropLastN IMM_LEN s1
            match opc with
            | .ADD => interpA ar fuel { st1 with stack := s2 ++ ar.fadd left right }
            | .SUBTRACT => interpA ar fuel { st1 with stack := s2 ++ ar.fsub left right }
            | .MULTIPLY => interpA ar fuel { st1 with stack := s2 ++ ar.fmul left right }
            | .DIVIDE =>
              if ar.fzero right then
                interpA ar fuel
                  { st1 with stack := s2, errors := st1.errors ++ "Cannot divide by zero.\n" }
              else interpA ar fuel { st1 with stack := s2 ++ ar.fdiv left right }
            | .EXP => interpA ar fuel { st1 with stack := s2 ++ ar.fpow left right }
            | _ => .crash ("unreachable: binary arm")
    else
      let errs := if st.stack = [] then st.errors ++ "No result.\n" else st.errors
      .ret (errs == "") { st with errors := errs }

/-- Result of the vm `execute`: an 8-byte double value, an error log, or a
panic. -/
inductive ExecOutA
  | ok (valBytes : List CByte)
  | err (m : String)
  | crash (m : String)
deriving DecidableEq

/-- `execute` of src/vm/interpreter.rs: run `interpret_scope` from a fresh
state and root binding; on `true` return `Ok(stack.pop_float().unwrap())`
(whose `unwrap` panics when fewer than eight stack bytes remain), on
`false` return `Err(errors)`. -/
def executeA (ar : ArithModel) (code : List CByte) : ExecOutA :=
  match interpA ar (code.length + 1) ⟨code, 0, [], "", []⟩ with
  | .crash m => .crash m
  | .ret true st =>
    match popFloatA st.stack with
    | .inr (v, _) => .ok v
    | .inl _ => .crash ("unwrap failure: pop_float on short stack")
  | .ret false st => .err st.errors

/-- Did the vm `execute` return `Ok`? -/
def ExecOutA.isOkRes : ExecOutA → Bool
  | .ok _ => true
  | _ => false

/-- The byte layout that claim C4 (and spec section 4.3) ascribes to a
compiled assignment: the `IDENTIFIER` opcode, a one-byte name length, the
UTF-8 name bytes, then the value subtree's code, then a final `VARWRITE`. -/
def claimedAssignLayout (name : String) (value : AST) : List CByte :=
  [CByte.b (byteFromOpcode .IDENTIFIER), CByte.b ((utf8Encode name).length % 256)] ++
    (utf8Encode name).map CByte.b ++ generate value ++ [CByte.b (byteFromOpcode .VARWRITE)]

/-! Theorems for the claims -/

/-- C1: the claim asserts that for every valid expression tree without
division by zero or assignment, the byte-stack VM of src/vm/runtime_state.rs
run on the generator's output returns `Ok` of the tree-walking
interpreter's value.  It fails already on the literal tree `Number 3.0`:
the treewalk interpreter returns `Ok(3.0)`, but the compiled stream is
`PUSH` followed by exactly eight operand bytes (`[0,0,0,0,0,0,8,64]` is the
little-endian IEEE-754 encoding of `3.0`), and `convert_float_from_code`
rejects a `PUSH` whose operand ends the stream (`pc + IMM_LEN >= len`),
logs a truncated-operand error, and lets the loop decode the operand bytes
as opcodes until byte `8` panics (`Unknown opcode 8`).  The third and
fourth conjuncts run the same pipeline in the model's symbolic-byte form:
the compiled literal is `PUSH` plus eight encoding bytes and its execution
does not return `Ok`. -/
theorem c1_vm_fails_on_literal_tree :
    executeA trivialAr (([0, 0, 0, 0, 0, 0, 0, 8, 64] : List Nat).map CByte.b) =
      .crash ("Unknown opcode 8")
    ∧ twInterpret (AST.Number ⟨3, 1⟩) = .ok ⟨3, 1⟩
    ∧ generate (AST.Number ⟨3, 1⟩) = CByte.b 0 :: encF ⟨3, 1⟩
    ∧ (executeA trivialAr (generate (AST.Number ⟨3, 1⟩))).isOkRes = false := by
  refine ⟨by decide, by decide, by decide, by decide⟩

/-- C2: the claim asserts that a `PUSH` with fewer than eight operand bytes
remaining logs a truncated-operand error and stops decoding, and that with
at least eight remaining the operand is pushed.  The code diverges twice.
First conjunct: with *exactly* eight bytes remaining (`pc + IMM_LEN >= len`
is an off-by-one) the VM still logs the truncated-operand error, then keeps
decoding all eight operand bytes as instructions (here eight `ADD`s, each
logging its own error) — so the error log shows one truncated-operand error
followed by eight insufficient-operand errors and `No result.`.  Second
conjunct: with one remaining byte the error is logged and the next byte is
still decoded as an `ADD` instruction, refuting "no later instruction in
the stream is executed". -/
theorem c2_truncated_push_behaviour :
    executeA trivialAr (([0, 1, 1, 1, 1, 1, 1, 1, 1] : List Nat).map CByte.b) =
      .err ("Not enough bytes to convert static code into float.\n" ++
        "Binary operation attempted with insufficient operands!\n" ++
        "Binary operation attempted with insufficient operands!\n" ++
        "Binary operation attempted with insufficient operands!\n" ++
        "Binary operation attempted with insufficient operands!\n" ++
        "Binary operation attempted with insufficient operands!\n" ++
        "Binary operation attempted with insufficient operands!\n" ++
        "Binary operation attempted with insufficient operands!\n" ++
        "Binary operation attempted with insufficient operands!\n" ++
        "No result.\n")
    ∧ executeA trivialAr ([CByte.b 0, CByte.b 1]) =
      .err ("Not enough bytes to convert static code into float.\n" ++
        "Binary operation attempted with insufficient operands!\n" ++ "No result.\n") := by
  refine ⟨by decide, by decide⟩

/-- C4: the claim asserts that an `Assignment` compiles to the `IDENTIFIER`
opcode, a length byte and the name bytes, then the value subtree, then a
closing `VARWRITE`.  The generator actually emits the value subtree first
and then the assignment opcode, length and name — no `VARWRITE` exists
anywhere in its output, and the stream ends with the last name byte
(`'x'` = 120), not with opcode 7.  Executing that stream on the executor
src/lib.rs wires up panics at the name byte (`Unknown opcode 120`), while
the crate's own `test_assign` expects `interpret("x = 3 - 2")` to succeed —
the generator contradicts the repository's tests and spec. -/
theorem c4_assignment_layout :
    generate (AST.Assignment ("x") (AST.Number ⟨3, 1⟩)) =
      (CByte.b 0 :: encF ⟨3, 1⟩) ++ [CByte.b 6, CByte.b 1, CByte.b 120]
    ∧ generate (AST.Assignment ("x") (AST.Number ⟨3, 1⟩)) ≠
      claimedAssignLayout ("x") (AST.Number ⟨3, 1⟩)
    ∧ (generate (AST.Assignment ("x") (AST.Number ⟨3, 1⟩))).getLast? = some (CByte.b 120)
    ∧ executeB (generate (AST.Assignment ("x") (AST.Number ⟨3, 1⟩))) =
      .crash ("Unknown opcode 120") := by
  refine ⟨by decide, by decide, by decide, by decide⟩

/-- C5: the claim asserts that an input containing an unknown character
lexes without panicking into an `Err` naming that character.  The
unknown-character arm formats `self.current()` after `next()` already
consumed the offending character: on `"#"` the character is last, so
`current()`'s bounds assertion panics; on `"#1"` the lexer returns an error
naming the *following* character `'1'` instead of `'#'`. -/
theorem c5_unknown_char_lexing :
    lex ("#") = .crash ("assertion failure: lexer current() out of bounds")
    ∧ lex ("#1") = .err ("Unexpected character: " ++ quoteC ('1') ++ ".\n") := by
  refine ⟨by decide, by decide⟩

/-- C6: parsing `"3 * +"` surfaces both `Expected number` errors — one for
the `+` lexeme and one for the end of input — concatenated in one message,
exactly as the claim states (and as the parser's own
`test_multiple_errors` expects). -/
theorem c6_two_expected_number_errors :
    lex ("3 * +") = .ok
      [⟨.Numeric, 1, "3"⟩, ⟨.Star, 1, "*"⟩, ⟨.Plus, 1, "+"⟩, ⟨.EOF, 1, "end of file"⟩]
    ∧ parse [⟨.Numeric, 1, "3"⟩, ⟨.Star, 1, "*"⟩, ⟨.Plus, 1, "+"⟩, ⟨.EOF, 1, "end of file"⟩] =
      .err ("Expected number on line 1, got + instead.\n" ++
        "Expected number on line 1, got end of file instead.\n")
    ∧ hasSubStr
        ("Expected number on line 1, got + instead.\nExpected number on line 1, got end of file instead.\n")
        ("Expected number on line 1, got + instead.\n") = true
    ∧ hasSubStr
        ("Expected number on line 1, got + instead.\nExpected number on line 1, got end of file instead.\n")
        ("Expected number on line 1, got end of file instead.\n") = true := by
  refine ⟨by decide, by decide, by decide, by decide⟩

/-- C7: `interpret("1 / 0")` returns an `Err` whose text contains both
`Cannot divide by zero.` (the non-fatal `DIVIDE` error, after which nothing
is pushed) and `No result.` (the empty stack at end of stream), exactly as
the claim states (and as `test_div_zero` in src/lib.rs expects). -/
theorem c7_divide_by_zero_errors :
    interpret ("1 / 0") = .err ("Cannot divide by zero.\nNo result.\n")
    ∧ hasSubStr ("Cannot divide by zero.\nNo result.\n") ("Cannot divide by zero.") = true
    ∧ hasSubStr ("Cannot divide by zero.\nNo result.\n") ("No result.") = true := by
  refine ⟨by decide, by decide, by decide⟩

/-- C8: `"2**3**2"` parses right-associatively as `2**(3**2)` and
`interpret` returns `Ok` of the rendering of `512.0`, exactly as the claim
states (and as `test_double_exponentiate` in src/lib.rs expects). -/
theorem c8_exponentiation_right_assoc :
    lex ("2**3**2") = .ok
      [⟨.Numeric, 1, "2"⟩, ⟨.DoubleStar, 1, "**"⟩, ⟨.Numeric, 1, "3"⟩,
        ⟨.DoubleStar, 1, "**"⟩, ⟨.Numeric, 1, "2"⟩, ⟨.EOF, 1, "end of file"⟩]
    ∧ parse
        [⟨.Numeric, 1, "2"⟩, ⟨.DoubleStar, 1, "**"⟩, ⟨.Numeric, 1, "3"⟩,
          ⟨.DoubleStar, 1, "**"⟩, ⟨.Numeric, 1, "2"⟩, ⟨.EOF, 1, "end of file"⟩] =
      .ok (AST.Exponentiate (AST.Number ⟨2, 1⟩)
        (AST.Exponentiate (AST.Number ⟨3, 1⟩) (AST.Number ⟨2, 1⟩)))
    ∧ interpret ("2**3**2") = .ok (renderFNum ⟨512, 1⟩)
    ∧ renderFNum ⟨512, 1⟩ = "512" := by
  refine ⟨by decide, by decide, by decide, by decide⟩

/-- C9 counterexample: at position 0 of the input `"-2."` a `'-'` is
immediately followed by a digit, yet `lex` produces no `Numeric` lexeme at
all: the folded literal runs into an unterminated float, so the whole call
returns only `Err("Unterminated float.\n")`. -/
theorem c9_counterexample_unterminated_negative :
    lex ("-2.") = .err ("Unterminated float.\n")
    ∧ ("-2.").data.getD 0 dChar = '-'
    ∧ isDigitC (("-2.").data.getD 1 dChar) = true := by
  refine ⟨by decide, by decide, by decide⟩

/-- C3 counterexample: running the stream `[VARWRITE, ADD]` on an empty
stack records only the float-pop failure and terminates — had the error
been non-fatal with execution continuing at the next instruction, as the
claim states, the `ADD` would have appended its insufficient-operands error
and the end-of-stream check would have appended `No result.`. -/
theorem c3_counterexample_varwrite_fatal :
    executeA trivialAr ([CByte.b 7, CByte.b 1]) =
      .err ("Expected 64-bit float on stack, found too few bytes.\n")
    ∧ executeA trivialAr ([CByte.b 7, CByte.b 1]) ≠
      .err ("Expected 64-bit float on stack, found too few bytes.\n" ++
        "Binary operation attempted with insufficient operands!\n" ++ "No result.\n") := by
  refine ⟨by decide, by decide⟩

/-- Bytes 8 and above name no opcode: `opcode_from_byte` panics on them. -/
theorem opcodeFromByte_eq_none (b : Nat) (h : 7 < b) : opcodeFromByte b = none := by
  unfold opcodeFromByte
  repeat rw [if_neg (by omega)]

/-- C10: whenever the byte-stack VM's decode loop reaches a position whose
opcode byte exceeds 7, the whole execution panics with the `Unknown opcode`
message (for any float-arithmetic model and any remaining fuel); the
condition is never surfaced through the `Result` error channel. -/
theorem c10_unknown_opcode_panics (ar : ArithModel) (fuel : Nat) (st : StA) (b : Nat)
    (h1 : st.pc < st.code.length) (h2 : st.code.getD st.pc (.b 0) = CByte.b b)
    (h3 : 7 < b) :
    interpA ar (fuel + 1) st = .crash ("Unknown opcode " ++ natToStr b) := by
  have hnone := opcodeFromByte_eq_none b h3
  simp only [interpA, if_pos h1, h2, hnone]

/-- Witness for C10 at the concrete one-byte stream `[8]`. -/
theorem c10_witness :
    interpA trivialAr 1 ⟨[CByte.b 8], 0, [], "", []⟩ = .crash ("Unknown opcode 8") :=
  c10_unknown_opcode_panics trivialAr 0 ⟨[CByte.b 8], 0, [], "", []⟩ 8 (by decide) (by decide)
    (by decide)

/-- C3 amended: a `VARWRITE` whose pops fail is fatal, not per-instruction.
The two conjuncts cover every failing pop of the source arm.  First: the
float pop fails (fewer than eight stack bytes) — the error is logged and
`interpret_scope` returns `false` immediately, stack untouched.  Second:
the float pop succeeds and the identifier pop then fails in any of its ways
(no length cell left beneath the popped value, a length byte exceeding the
bytes still on the stack, or name bytes that are not valid UTF-8 — the
byte-stack's type-mismatch conditions): the error is logged and execution
again stops at once, the stack left exactly as the successful pops produced
it.  In no failing case is any later instruction executed. -/
theorem c3_varwrite_failure_fatal (ar : ArithModel) (fuel : Nat) (st : StA)
    (h1 : st.pc < st.code.length) (h2 : st.code.getD st.pc (.b 0) = CByte.b 7) :
    (∀ e, popFloatA st.stack = .inl e →
      interpA ar (fuel + 1) st = .ret false
        { st with pc := st.pc + 1, errors := st.errors ++ e })
    ∧ (∀ valBytes stack1 e stack2,
      popFloatA st.stack = .inr (valBytes, stack1) →
      popIdentA stack1 = .errP e stack2 →
      interpA ar (fuel + 1) st = .ret false
        { st with pc := st.pc + 1, stack := stack2, errors := st.errors ++ e }) := by
  have hop : opcodeFromByte 7 = some Opcode.VARWRITE := by decide
  constructor
  · intro e he
    simp only [interpA, if_pos h1, h2, hop, he]
  · intro valBytes stack1 e stack2 hf hi
    simp only [interpA, if_pos h1, h2, hop, hf, hi]

/-- Witness for C3's amended theorem at three concrete failure modes: an
empty stack (float-pop underflow), a stack of exactly eight bytes (no
length cell beneath the popped value), and a nine-byte stack whose length
byte `5` exceeds the zero bytes left beneath it (the length-mismatch
failure). -/
theorem c3_witness :
    interpA trivialAr 1 ⟨[CByte.b 7], 0, [], "", []⟩ = .ret false
      ⟨[CByte.b 7], 1, [], "Expected 64-bit float on stack, found too few bytes.\n", []⟩
    ∧ interpA trivialAr 1 ⟨[CByte.b 7], 0, List.replicate 8 (CByte.b 0), "", []⟩ = .ret false
      ⟨[CByte.b 7], 1, [], "Expected identifier on stack, found none.", []⟩
    ∧ interpA trivialAr 1 ⟨[CByte.b 7], 0, CByte.b 5 :: List.replicate 8 (CByte.b 0), "", []⟩ =
      .ret false
        ⟨[CByte.b 7], 1, [],
          "Expected identifier of length 0 on top of stack, but found too few bytes on stack!\n",
          []⟩ :=
  ⟨(c3_varwrite_failure_fatal trivialAr 0 ⟨[CByte.b 7], 0, [], "", []⟩ (by decide) (by decide)).1
      ("Expected 64-bit float on stack, found too few bytes.\n") (by decide),
   (c3_varwrite_failure_fatal trivialAr 0 ⟨[CByte.b 7], 0, List.replicate 8 (CByte.b 0), "", []⟩
      (by decide) (by decide)).2 (List.replicate 8 (CByte.b 0)) []
      ("Expected identifier on stack, found none.") [] (by decide) (by decide),
   (c3_varwrite_failure_fatal trivialAr 0
      ⟨[CByte.b 7], 0, CByte.b 5 :: List.replicate 8 (CByte.b 0), "", []⟩
      (by decide) (by decide)).2 (List.replicate 8 (CByte.b 0)) [CByte.b 5]
      ("Expected identifier of length 0 on top of stack, but found too few bytes on stack!\n") []
      (by decide) (by decide)⟩


/-- The whitespace-skipping loop does nothing when the current character is
not whitespace. -/
theorem skipWs_of_not_ws (fuel : Nat) (st : LexSt) (h : isWsC st.cur = false) :
    skipWs fuel st = st := by
  cases fuel with
  | zero => rfl
  | succ f => simp [skipWs, h]

/-- A string built from a first character keeps it at the head, through any
appends. -/
theorem head_singleton_append (c : Char) (s t : String) :
    ((String.singleton c ++ s) ++ t).data.head? = some c := by
  cases s
  cases t
  rfl

/-- Same fact for a single append. -/
theorem head_singleton_append1 (c : Char) (s : String) :
    (String.singleton c ++ s).data.head? = some c := by
  cases s
  rfl

/-- Every lexeme `lex_number` accepts is `Numeric` and its text begins with
the character the scanner handed over (`-` or the first digit). -/
theorem lexNumber_ok (fuel : Nat) (start : Char) (st : LexSt) (lx : Lexeme) (st' : LexSt)
    (h : lexNumber fuel start st = (.ok lx, st')) :
    lx.lexemeType = .Numeric ∧ lx.text.data.head? = some start := by
  unfold lexNumber at h
  rcases hcd : collectDigits fuel st with ⟨ds, st1⟩
  rw [hcd] at h
  simp only at h
  split at h
  · rw [Prod.mk.injEq] at h
    cases h.1
    exact ⟨rfl, head_singleton_append1 start ds⟩
  · split at h
    · exact absurd h (by simp)
    · rcases hcd2 : collectDigits fuel st1.adv with ⟨ds2, st3⟩
      rw [hcd2] at h
      simp only at h
      rw [Prod.mk.injEq] at h
      cases h.1
      refine ⟨rfl, ?_⟩
      rw [String.append_assoc (String.singleton start ++ ds)]
      exact head_singleton_append start ds (String.singleton st1.cur ++ ds2)


/-- C9 amended: whenever the scanner (`lex_next`) runs at a position holding
a `'-'` immediately followed by a digit, it folds the `'-'` into a numeric
literal regardless of context: any lexeme it produces there is a single
`Numeric` lexeme whose text begins with `'-'` (never the `Minus` operator);
a malformed literal instead yields the `UnterminatedFloat` error and no
lexeme.  A `'-'` not immediately followed by a digit lexes as the `Minus`
operator lexeme. -/
theorem c9_minus_digit_fold (fuel : Nat) (st : LexSt)
    (hin : st.index < st.data.length)
    (hminus : st.data.getD st.index dChar = '-') :
    ((st.index + 1 < st.data.length ∧ isDigitC (st.data.getD (st.index + 1) dChar) = true) →
      ∀ lx st', lexNext fuel st = (.ok lx, st') →
        lx.lexemeType = .Numeric ∧ lx.text.data.head? = some ('-'))
    ∧ (¬(st.index + 1 < st.data.length ∧ isDigitC (st.data.getD (st.index + 1) dChar) = true) →
      lexNext fuel st = (.ok ⟨.Minus, st.line, "-"⟩, st.adv)) := by
  have hcur : st.cur = '-' := hminus
  have hskip : skipWs fuel st = st := skipWs_of_not_ws fuel st (by rw [hcur]; decide)
  have hinB : st.inB = true := by simp [LexSt.inB]; exact hin
  have hadvcur : st.adv.cur = st.data.getD (st.index + 1) dChar := rfl
  constructor
  · intro hdig lx st' h
    have hab : st.adv.inB = true := by simp [LexSt.inB, LexSt.adv]; exact hdig.1
    have hd : isDigitC st.adv.cur = true := by rw [hadvcur]; exact hdig.2
    have hred : lexNext fuel st = lexNumber fuel ('-') st.adv := by
      unfold lexNext
      rw [hskip]
      simp [hinB, hcur, hab, hd]
    rw [hred] at h
    exact lexNumber_ok fuel ('-') st.adv lx st' h
  · intro hne
    have hcond : (st.adv.inB && isDigitC st.adv.cur) = false := by
      cases ha : st.adv.inB with
      | false => rfl
      | true =>
        cases hb : isDigitC st.adv.cur with
        | false => rfl
        | true =>
          exfalso
          refine hne ⟨?_, by rw [hadvcur] at hb; exact hb⟩
          have := ha
          simp [LexSt.inB, LexSt.adv] at this
          exact this
    unfold lexNext
    rw [hskip]
    simp [hinB, hcur, hcond]
    rfl

/-- Witness for C9's amended theorem at both branches: scanning `"-2"` from
position 0 yields the folded `Numeric` lexeme `-2`; scanning `"-a"` yields
the `Minus` operator lexeme. -/
theorem c9_minus_digit_fold_witness :
    ((⟨LexemeType.Numeric, 1, "-2"⟩ : Lexeme).lexemeType = .Numeric ∧
      (⟨LexemeType.Numeric, 1, "-2"⟩ : Lexeme).text.data.head? = some ('-'))
    ∧ lexNext 3 ⟨['-', 'a'], 0, 1⟩ =
        (.ok ⟨.Minus, 1, "-"⟩, LexSt.adv ⟨['-', 'a'], 0, 1⟩) :=
  ⟨(c9_minus_digit_fold 3 ⟨['-', '2'], 0, 1⟩ (by decide) (by decide)).1 (by decide)
      ⟨LexemeType.Numeric, 1, "-2"⟩ ⟨['-', '2'], 2, 1⟩ (by decide),
   (c9_minus_digit_fold 3 ⟨['-', 'a'], 0, 1⟩ (by decide) (by decide)).2 (by decide)⟩

end Walc
